import Mathlib

/-!
# Disnix deployment coordinator: `deploy` and `set_profiles`

A shallow embedding of `src/libdeploy/deploy.c` and `src/libdeploy/profiles.c`.

The phases that `deploy` drives (`distribute`, `lock`, `activate_system`,
`migrate`, `unlock`, the distribution iterator of `set_target_profiles` and
`pkgmgmt_set_coordinator_profile`) are external collaborators.  Each of them is
embedded as a call that appends itself to a log of invocations and returns the
value an `Outcomes` record holds for it.  The control flow between those calls
is the control flow of the C source.

C `int` results are `Int`, tested against zero as C does; `unsigned int flags`
is a `Nat` and `flags & MASK` is `flags &&& MASK`.
-/

namespace Disnix

/-! ## Declarations of headers that are outside the source tree -/

/-- Modelled from the spec: the enum `DeployStatus` of `deploy.h`, the result
of `deploy` (`DeployStatus ∈ {OK, FAIL, STATE_FAIL}`). -/
inductive DeployStatus where
  | DEPLOY_OK
  | DEPLOY_FAIL
  | DEPLOY_STATE_FAIL
  deriving DecidableEq, Repr

/-- Modelled from the spec: the enum `TransitionStatus` of `activate.h`, the
result of the activate phase: both passes completed, a failure that was rolled
back, or a failed rollback. -/
inductive TransitionStatus where
  | TRANSITION_OK
  | TRANSITION_FAILED
  | TRANSITION_ROLLBACK_FAILED
  deriving DecidableEq, Repr

/-- Modelled from the spec: the integer value of a `TransitionStatus`
enumerator.  A C enum numbers its enumerators from zero in declaration order;
`deploy` compares the status with `0`, which is the success value. -/
def TransitionStatus.toInt : TransitionStatus → Int
  | .TRANSITION_OK => 0
  | .TRANSITION_FAILED => 1
  | .TRANSITION_ROLLBACK_FAILED => 2

/-- The flag masks used by `deploy.c` and `profiles.c`.  Their `#define`s are in
headers outside the source tree, so their values are parameters. -/
structure Constants where
  FLAG_NO_LOCK : Nat
  FLAG_NO_MIGRATION : Nat
  SET_NO_TARGET_PROFILES : Nat
  SET_NO_COORDINATOR_PROFILE : Nat
  deriving DecidableEq, Repr

/-- The glib constant `TRUE`. -/
def TRUE : Int := 1

/-! ## External collaborators -/

/-- The external operations whose invocations are observed. -/
inductive Call where
  | distribute
  | lock
  | activate_system
  | migrate
  | set_target_profiles
  | pkgmgmt_set_coordinator_profile
  | unlock
  deriving DecidableEq, Repr

/-- The log of external invocations, oldest first. -/
abbrev Trace := List Call

/-- What each external operation returns when it is invoked. -/
structure Outcomes where
  distribute : Int
  lock : Int
  activate_system : TransitionStatus
  migrate : Int
  distribution_iterator_has_succeeded : Int
  pkgmgmt_set_coordinator_profile : Int
  unlock : Int
  deriving DecidableEq, Repr

/-- External `distribute(manifest, max_concurrent_transfers)`. -/
def distribute (o : Outcomes) (tr : Trace) : Int × Trace :=
  (o.distribute, tr ++ [Call.distribute])

/-- External `lock(distribution_array, target_array, profile, pre_hook, post_hook)`. -/
def lock (o : Outcomes) (tr : Trace) : Int × Trace :=
  (o.lock, tr ++ [Call.lock])

/-- External `unlock(distribution_array, target_array, profile, pre_hook, post_hook)`. -/
def unlock (o : Outcomes) (tr : Trace) : Int × Trace :=
  (o.unlock, tr ++ [Call.unlock])

/-- External `activate_system(manifest, old_activation_array, flags, pre_hook, post_hook)`. -/
def activate_system (o : Outcomes) (_flags : Nat) (tr : Trace) : TransitionStatus × Trace :=
  (o.activate_system, tr ++ [Call.activate_system])

/-- External `migrate(manifest, old_snapshots_array, max_concurrent_transfers, flags, keep)`. -/
def migrate (o : Outcomes) (_flags : Nat) (tr : Trace) : Int × Trace :=
  (o.migrate, tr ++ [Call.migrate])

/-- External `pkgmgmt_set_coordinator_profile(coordinator_profile_path, manifest_file, profile)`. -/
def pkgmgmt_set_coordinator_profile (o : Outcomes) (tr : Trace) : Int × Trace :=
  (o.pkgmgmt_set_coordinator_profile, tr ++ [Call.pkgmgmt_set_coordinator_profile])

/-! ## `profiles.c` -/

/-- The function `set_target_profiles`: runs the distribution iterator over the
profile mapping table and returns `distribution_iterator_has_succeeded`. -/
def set_target_profiles (o : Outcomes) (tr : Trace) : Int × Trace :=
  let success := o.distribution_iterator_has_succeeded
  (success, tr ++ [Call.set_target_profiles])

/-- The function `set_profiles`:
`(flags & SET_NO_TARGET_PROFILES || set_target_profiles(..))
 && (flags & SET_NO_COORDINATOR_PROFILE || pkgmgmt_set_coordinator_profile(..))`,
with the short-circuit evaluation of `||` and `&&`. -/
def set_profiles (K : Constants) (o : Outcomes) (flags : Nat) (tr : Trace) : Int × Trace :=
  let left : Bool × Trace :=
    if flags &&& K.SET_NO_TARGET_PROFILES ≠ 0 then (true, tr)
    else
      let r := set_target_profiles o tr
      (decide (r.1 ≠ 0), r.2)
  if left.1 = false then (0, left.2)
  else
    let right : Bool × Trace :=
      if flags &&& K.SET_NO_COORDINATOR_PROFILE ≠ 0 then (true, left.2)
      else
        let r := pkgmgmt_set_coordinator_profile o left.2
        (decide (r.1 ≠ 0), r.2)
    (if right.1 then 1 else 0, right.2)

/-! ## `deploy.c` -/

/-- The function `distribute_closures`. -/
def distribute_closures (o : Outcomes) (tr : Trace) : Int × Trace :=
  distribute o tr

/-- The function `activate_new_configuration`: calls `activate_system`, prints
the status and returns it. -/
def activate_new_configuration (o : Outcomes) (flags : Nat) (tr : Trace) :
    TransitionStatus × Trace :=
  let status := activate_system o flags tr
  status

/-- The function `acquire_locks`. -/
def acquire_locks (K : Constants) (o : Outcomes) (flags : Nat) (tr : Trace) : Int × Trace :=
  if flags &&& K.FLAG_NO_LOCK ≠ 0 then (TRUE, tr)
  else lock o tr

/-- The function `release_locks`. -/
def release_locks (K : Constants) (o : Outcomes) (flags : Nat) (tr : Trace) : Int × Trace :=
  if flags &&& K.FLAG_NO_LOCK ≠ 0 then (TRUE, tr)
  else unlock o tr

/-- The function `migrate_data`. -/
def migrate_data (K : Constants) (o : Outcomes) (flags : Nat) (tr : Trace) : Int × Trace :=
  if flags &&& K.FLAG_NO_MIGRATION ≠ 0 then (TRUE, tr)
  else migrate o flags tr

/-- The function `set_all_profiles`: `set_profiles` with flags `0`. -/
def set_all_profiles (K : Constants) (o : Outcomes) (tr : Trace) : Int × Trace :=
  set_profiles K o 0 tr

/-- The function `deploy`, started with the invocation log `tr`. -/
def deploy (K : Constants) (o : Outcomes) (flags : Nat) (tr : Trace) : DeployStatus × Trace :=
  let d := distribute_closures o tr
  if d.1 = 0 then (DeployStatus.DEPLOY_FAIL, d.2)
  else
    let l := acquire_locks K o flags d.2
    if l.1 = 0 then (DeployStatus.DEPLOY_FAIL, l.2)
    else
      let a := activate_new_configuration o flags l.2
      if a.1.toInt ≠ 0 then
        let u := release_locks K o flags a.2
        (DeployStatus.DEPLOY_FAIL, u.2)
      else
        let m := migrate_data K o flags a.2
        if m.1 = 0 then
          let u := release_locks K o flags m.2
          (DeployStatus.DEPLOY_STATE_FAIL, u.2)
        else
          let p := set_all_profiles K o m.2
          if p.1 = 0 then
            let u := release_locks K o flags p.2
            (DeployStatus.DEPLOY_FAIL, u.2)
          else
            let u := release_locks K o flags p.2
            if u.1 = 0 then (DeployStatus.DEPLOY_FAIL, u.2)
            else (DeployStatus.DEPLOY_OK, u.2)

/-! ## Vocabulary of the properties -/

/-- The `NO_LOCK` flag is set in `flags`. -/
def noLock (K : Constants) (flags : Nat) : Prop := flags &&& K.FLAG_NO_LOCK ≠ 0

/-- The `NO_MIGRATION` flag is set in `flags`. -/
def noMigration (K : Constants) (flags : Nat) : Prop := flags &&& K.FLAG_NO_MIGRATION ≠ 0

/-- The `SET_NO_TARGET_PROFILES` flag is set in `flags`. -/
def noTargetProfiles (K : Constants) (flags : Nat) : Prop :=
  flags &&& K.SET_NO_TARGET_PROFILES ≠ 0

/-- The `SET_NO_COORDINATOR_PROFILE` flag is set in `flags`. -/
def noCoordinatorProfile (K : Constants) (flags : Nat) : Prop :=
  flags &&& K.SET_NO_COORDINATOR_PROFILE ≠ 0

instance (K : Constants) (flags : Nat) : Decidable (noLock K flags) :=
  inferInstanceAs (Decidable (flags &&& K.FLAG_NO_LOCK ≠ 0))

instance (K : Constants) (flags : Nat) : Decidable (noMigration K flags) :=
  inferInstanceAs (Decidable (flags &&& K.FLAG_NO_MIGRATION ≠ 0))

instance (K : Constants) (flags : Nat) : Decidable (noTargetProfiles K flags) :=
  inferInstanceAs (Decidable (flags &&& K.SET_NO_TARGET_PROFILES ≠ 0))

instance (K : Constants) (flags : Nat) : Decidable (noCoordinatorProfile K flags) :=
  inferInstanceAs (Decidable (flags &&& K.SET_NO_COORDINATOR_PROFILE ≠ 0))

/-- The external operation `c` reports success when it is invoked. -/
def Outcomes.ok (o : Outcomes) : Call → Bool
  | .distribute => o.distribute != 0
  | .lock => o.lock != 0
  | .activate_system => o.activate_system.toInt == 0
  | .migrate => o.migrate != 0
  | .set_target_profiles => o.distribution_iterator_has_succeeded != 0
  | .pkgmgmt_set_coordinator_profile => o.pkgmgmt_set_coordinator_profile != 0
  | .unlock => o.unlock != 0

/-- The outcomes `o` with the results of `lock` and `unlock` replaced. -/
def Outcomes.withLocking (o : Outcomes) (l u : Int) : Outcomes :=
  ⟨o.distribute, l, o.activate_system, o.migrate, o.distribution_iterator_has_succeeded,
    o.pkgmgmt_set_coordinator_profile, u⟩

/-- The outcomes `o` with the result of `migrate` replaced. -/
def Outcomes.withMigrate (o : Outcomes) (m : Int) : Outcomes :=
  ⟨o.distribute, o.lock, o.activate_system, m, o.distribution_iterator_has_succeeded,
    o.pkgmgmt_set_coordinator_profile, o.unlock⟩

/-- The run of `deploy` from an empty invocation log. -/
def run (K : Constants) (o : Outcomes) (flags : Nat) : DeployStatus × Trace :=
  deploy K o flags []

/-- The invocations `acquire_locks` makes. -/
def lockCalls (K : Constants) (flags : Nat) : Trace :=
  if noLock K flags then [] else [Call.lock]

/-- The invocations `release_locks` makes. -/
def unlockCalls (K : Constants) (flags : Nat) : Trace :=
  if noLock K flags then [] else [Call.unlock]

/-- The invocations `migrate_data` makes. -/
def migrateCalls (K : Constants) (flags : Nat) : Trace :=
  if noMigration K flags then [] else [Call.migrate]

/-- Position of an operation in the order
distribute, lock, activate, migrate, profiles (targets, then coordinator), unlock. -/
def rank : Call → Nat
  | .distribute => 0
  | .lock => 1
  | .activate_system => 2
  | .migrate => 3
  | .set_target_profiles => 4
  | .pkgmgmt_set_coordinator_profile => 5
  | .unlock => 6

/-- The operation is bypassed by a flag of `deploy`: `lock` and `unlock` by
`NO_LOCK`, `migrate` by `NO_MIGRATION`. -/
def bypassed (K : Constants) (flags : Nat) : Call → Prop
  | .lock => noLock K flags
  | .unlock => noLock K flags
  | .migrate => noMigration K flags
  | _ => False

/-- The phases before `unlock`, in order, without those the flags bypass. -/
def pipeline (K : Constants) (flags : Nat) : Trace :=
  [Call.distribute] ++ (if noLock K flags then [] else [Call.lock]) ++ [Call.activate_system]
    ++ (if noMigration K flags then [] else [Call.migrate])
    ++ [Call.set_target_profiles, Call.pkgmgmt_set_coordinator_profile]

/-! ## Sample inputs -/

/-- Sample flag masks: four distinct bits. -/
def sampleConstants : Constants := ⟨8, 4, 2, 1⟩

/-- Every operation succeeds. -/
def allOk : Outcomes := ⟨1, 1, .TRANSITION_OK, 1, 1, 1, 1⟩

/-- Activation fails and its rollback fails too; everything else succeeds. -/
def rollbackFails : Outcomes := ⟨1, 1, .TRANSITION_ROLLBACK_FAILED, 1, 1, 1, 1⟩

/-- Activation fails and is rolled back; everything else succeeds. -/
def activationFails : Outcomes := ⟨1, 1, .TRANSITION_FAILED, 1, 1, 1, 1⟩

/-- The operation `lock` fails; everything else succeeds. -/
def lockFails : Outcomes := ⟨1, 0, .TRANSITION_OK, 1, 1, 1, 1⟩

/-- The operation `distribute` fails; everything else succeeds. -/
def distributeFails : Outcomes := ⟨0, 1, .TRANSITION_OK, 1, 1, 1, 1⟩

/-- The operation `migrate` fails; everything else succeeds. -/
def migrateFails : Outcomes := ⟨1, 1, .TRANSITION_OK, 0, 1, 1, 1⟩

/-- Publishing the coordinator profile fails, and so does `unlock`. -/
def coordinatorProfileFails : Outcomes := ⟨1, 1, .TRANSITION_OK, 1, 1, 0, 0⟩

/-- The operations `lock`, `migrate` and `unlock` fail; everything else succeeds. -/
def bypassableFail : Outcomes := ⟨1, 0, .TRANSITION_OK, 0, 1, 1, 0⟩

/-! ## Closed forms of the embedded functions -/

theorem acquire_locks_eq (K : Constants) (o : Outcomes) (flags : Nat) (tr : Trace) :
    acquire_locks K o flags tr
      = (if noLock K flags then 1 else o.lock, tr ++ lockCalls K flags) := by
  unfold acquire_locks lock lockCalls noLock TRUE
  split_ifs <;> simp

theorem release_locks_eq (K : Constants) (o : Outcomes) (flags : Nat) (tr : Trace) :
    release_locks K o flags tr
      = (if noLock K flags then 1 else o.unlock, tr ++ unlockCalls K flags) := by
  unfold release_locks unlock unlockCalls noLock TRUE
  split_ifs <;> simp

theorem migrate_data_eq (K : Constants) (o : Outcomes) (flags : Nat) (tr : Trace) :
    migrate_data K o flags tr
      = (if noMigration K flags then 1 else o.migrate, tr ++ migrateCalls K flags) := by
  unfold migrate_data migrate migrateCalls noMigration TRUE
  split_ifs <;> simp

theorem set_all_profiles_eq (K : Constants) (o : Outcomes) (tr : Trace) :
    set_all_profiles K o tr
      = if o.distribution_iterator_has_succeeded = 0 then (0, tr ++ [Call.set_target_profiles])
        else if o.pkgmgmt_set_coordinator_profile = 0 then
          (0, tr ++ [Call.set_target_profiles, Call.pkgmgmt_set_coordinator_profile])
        else (1, tr ++ [Call.set_target_profiles, Call.pkgmgmt_set_coordinator_profile]) := by
  unfold set_all_profiles set_profiles set_target_profiles pkgmgmt_set_coordinator_profile
  split_ifs <;> simp_all

theorem deploy_eq (K : Constants) (o : Outcomes) (flags : Nat) (tr : Trace) :
    deploy K o flags tr =
      if o.distribute = 0 then (DeployStatus.DEPLOY_FAIL, tr ++ [Call.distribute])
      else if ¬ noLock K flags ∧ o.lock = 0 then
        (DeployStatus.DEPLOY_FAIL, tr ++ [Call.distribute, Call.lock])
      else if o.activate_system ≠ TransitionStatus.TRANSITION_OK then
        (DeployStatus.DEPLOY_FAIL,
          tr ++ [Call.distribute] ++ lockCalls K flags ++ [Call.activate_system]
            ++ unlockCalls K flags)
      else if ¬ noMigration K flags ∧ o.migrate = 0 then
        (DeployStatus.DEPLOY_STATE_FAIL,
          tr ++ [Call.distribute] ++ lockCalls K flags ++ [Call.activate_system, Call.migrate]
            ++ unlockCalls K flags)
      else if o.distribution_iterator_has_succeeded = 0 then
        (DeployStatus.DEPLOY_FAIL,
          tr ++ [Call.distribute] ++ lockCalls K flags ++ [Call.activate_system]
            ++ migrateCalls K flags ++ [Call.set_target_profiles] ++ unlockCalls K flags)
      else if o.pkgmgmt_set_coordinator_profile = 0 then
        (DeployStatus.DEPLOY_FAIL,
          tr ++ [Call.distribute] ++ lockCalls K flags ++ [Call.activate_system]
            ++ migrateCalls K flags
            ++ [Call.set_target_profiles, Call.pkgmgmt_set_coordinator_profile]
            ++ unlockCalls K flags)
      else
        (if ¬ noLock K flags ∧ o.unlock = 0 then DeployStatus.DEPLOY_FAIL
          else DeployStatus.DEPLOY_OK,
          tr ++ [Call.distribute] ++ lockCalls K flags ++ [Call.activate_system]
            ++ migrateCalls K flags
            ++ [Call.set_target_profiles, Call.pkgmgmt_set_coordinator_profile]
            ++ unlockCalls K flags) := by
  unfold deploy
  simp only [acquire_locks_eq, release_locks_eq, migrate_data_eq, set_all_profiles_eq,
    distribute_closures, distribute, activate_new_configuration, activate_system]
  by_cases hd : o.distribute = 0
  · simp [hd]
  by_cases hnl : noLock K flags
  · by_cases hnm : noMigration K flags <;>
    cases ha : o.activate_system <;>
    by_cases ht : o.distribution_iterator_has_succeeded = 0 <;>
    by_cases hc : o.pkgmgmt_set_coordinator_profile = 0 <;>
    by_cases hm : o.migrate = 0 <;>
    simp [hd, hnl, hnm, ha, ht, hc, hm, lockCalls, unlockCalls, migrateCalls, TransitionStatus.toInt]
  · by_cases hl : o.lock = 0
    · simp [hd, hnl, hl, lockCalls]
    by_cases hnm : noMigration K flags <;>
    cases ha : o.activate_system <;>
    by_cases ht : o.distribution_iterator_has_succeeded = 0 <;>
    by_cases hc : o.pkgmgmt_set_coordinator_profile = 0 <;>
    by_cases hm : o.migrate = 0 <;>
    by_cases hu : o.unlock = 0 <;>
    simp [hd, hnl, hl, hnm, ha, ht, hc, hm, hu, lockCalls, unlockCalls, migrateCalls, TransitionStatus.toInt]



theorem run_cases (K : Constants) (o : Outcomes) (flags : Nat) :
    (o.distribute = 0 ∧ run K o flags = (DeployStatus.DEPLOY_FAIL, [Call.distribute])) ∨
    (o.distribute ≠ 0 ∧ ¬ noLock K flags ∧ o.lock = 0 ∧
      run K o flags = (DeployStatus.DEPLOY_FAIL, [Call.distribute, Call.lock])) ∨
    (o.distribute ≠ 0 ∧ (noLock K flags ∨ o.lock ≠ 0) ∧
      ((o.activate_system ≠ TransitionStatus.TRANSITION_OK ∧
        run K o flags = (DeployStatus.DEPLOY_FAIL,
          [Call.distribute] ++ lockCalls K flags ++ [Call.activate_system]
            ++ unlockCalls K flags)) ∨
      (o.activate_system = TransitionStatus.TRANSITION_OK ∧
        ((¬ noMigration K flags ∧ o.migrate = 0 ∧
          run K o flags = (DeployStatus.DEPLOY_STATE_FAIL,
            [Call.distribute] ++ lockCalls K flags ++ [Call.activate_system, Call.migrate]
              ++ unlockCalls K flags)) ∨
        ((noMigration K flags ∨ o.migrate ≠ 0) ∧
          ((o.distribution_iterator_has_succeeded = 0 ∧
            run K o flags = (DeployStatus.DEPLOY_FAIL,
              [Call.distribute] ++ lockCalls K flags ++ [Call.activate_system]
                ++ migrateCalls K flags ++ [Call.set_target_profiles]
                ++ unlockCalls K flags)) ∨
          (o.distribution_iterator_has_succeeded ≠ 0 ∧
            o.pkgmgmt_set_coordinator_profile = 0 ∧
            run K o flags = (DeployStatus.DEPLOY_FAIL,
              [Call.distribute] ++ lockCalls K flags ++ [Call.activate_system]
                ++ migrateCalls K flags
                ++ [Call.set_target_profiles, Call.pkgmgmt_set_coordinator_profile]
                ++ unlockCalls K flags)) ∨
          (o.distribution_iterator_has_succeeded ≠ 0 ∧
            o.pkgmgmt_set_coordinator_profile ≠ 0 ∧ ¬ noLock K flags ∧ o.unlock = 0 ∧
            run K o flags = (DeployStatus.DEPLOY_FAIL,
              [Call.distribute] ++ lockCalls K flags ++ [Call.activate_system]
                ++ migrateCalls K flags
                ++ [Call.set_target_profiles, Call.pkgmgmt_set_coordinator_profile]
                ++ unlockCalls K flags)) ∨
          (o.distribution_iterator_has_succeeded ≠ 0 ∧
            o.pkgmgmt_set_coordinator_profile ≠ 0 ∧ (noLock K flags ∨ o.unlock ≠ 0) ∧
            run K o flags = (DeployStatus.DEPLOY_OK,
              [Call.distribute] ++ lockCalls K flags ++ [Call.activate_system]
                ++ migrateCalls K flags
                ++ [Call.set_target_profiles, Call.pkgmgmt_set_coordinator_profile]
                ++ unlockCalls K flags)))))))) := by
  unfold run
  rw [deploy_eq]
  by_cases hd : o.distribute = 0
  · rw [if_pos hd]; exact Or.inl ⟨hd, rfl⟩
  rw [if_neg hd]
  by_cases hl : ¬ noLock K flags ∧ o.lock = 0
  · rw [if_pos hl]; exact Or.inr (Or.inl ⟨hd, hl.1, hl.2, rfl⟩)
  rw [if_neg hl]
  have hl2 : noLock K flags ∨ o.lock ≠ 0 := by tauto
  refine Or.inr (Or.inr ⟨hd, hl2, ?_⟩)
  by_cases ha : o.activate_system ≠ TransitionStatus.TRANSITION_OK
  · rw [if_pos ha]; exact Or.inl ⟨ha, rfl⟩
  rw [if_neg ha]
  refine Or.inr ⟨not_not.mp ha, ?_⟩
  by_cases hm : ¬ noMigration K flags ∧ o.migrate = 0
  · rw [if_pos hm]; exact Or.inl ⟨hm.1, hm.2, rfl⟩
  rw [if_neg hm]
  have hm2 : noMigration K flags ∨ o.migrate ≠ 0 := by tauto
  refine Or.inr ⟨hm2, ?_⟩
  by_cases ht : o.distribution_iterator_has_succeeded = 0
  · rw [if_pos ht]; exact Or.inl ⟨ht, rfl⟩
  rw [if_neg ht]
  by_cases hc : o.pkgmgmt_set_coordinator_profile = 0
  · rw [if_pos hc]; exact Or.inr (Or.inl ⟨ht, hc, rfl⟩)
  rw [if_neg hc]
  by_cases hu : ¬ noLock K flags ∧ o.unlock = 0
  · rw [if_pos hu]; exact Or.inr (Or.inr (Or.inl ⟨ht, hc, hu.1, hu.2, rfl⟩))
  rw [if_neg hu]
  have hu2 : noLock K flags ∨ o.unlock ≠ 0 := by tauto
  exact Or.inr (Or.inr (Or.inr ⟨ht, hc, hu2, rfl⟩))

/-- The result of `set_all_profiles` does not depend on the log it starts from:
it is zero exactly when one of the two sub-steps reports failure. -/
theorem set_all_profiles_fails_iff (K : Constants) (o : Outcomes) (tr : Trace) :
    (set_all_profiles K o tr).1 = 0 ↔
      o.distribution_iterator_has_succeeded = 0 ∨ o.pkgmgmt_set_coordinator_profile = 0 := by
  rw [set_all_profiles_eq]
  by_cases ht : o.distribution_iterator_has_succeeded = 0 <;>
    by_cases hc : o.pkgmgmt_set_coordinator_profile = 0 <;> simp [ht, hc]

/-! ### Order of the invocations -/

/-- Without the final `unlock`, the log of a run is an initial segment of the pipeline. -/
theorem run_initial_segment (K : Constants) (o : Outcomes) (flags : Nat) :
    ((run K o flags).2.filter (fun c => decide (c ≠ Call.unlock))) <+: pipeline K flags := by
  rcases run_cases K o flags with ⟨h1, hr⟩ | ⟨h1, h2, h3, hr⟩ | ⟨h1, h2, ⟨h3, hr⟩ |
    ⟨h3, ⟨h4, h5, hr⟩ | ⟨h4, ⟨h5, hr⟩ | ⟨h5, h6, hr⟩ | ⟨h5, h6, h7, h8, hr⟩ |
      ⟨h5, h6, h7, hr⟩⟩⟩⟩ <;>
  rw [hr] <;>
  by_cases hnl : noLock K flags <;> by_cases hnm : noMigration K flags <;>
  simp_all [lockCalls, unlockCalls, migrateCalls, pipeline]

/-- The only place of `unlock` in the log is the end, and it is there exactly
when `lock` was invoked and succeeded. -/
theorem run_unlock_last (K : Constants) (o : Outcomes) (flags : Nat) :
    (run K o flags).2 = (run K o flags).2.filter (fun c => decide (c ≠ Call.unlock))
      ++ (if Call.lock ∈ (run K o flags).2 ∧ o.lock ≠ 0 then [Call.unlock] else []) := by
  rcases run_cases K o flags with ⟨h1, hr⟩ | ⟨h1, h2, h3, hr⟩ | ⟨h1, h2, ⟨h3, hr⟩ |
    ⟨h3, ⟨h4, h5, hr⟩ | ⟨h4, ⟨h5, hr⟩ | ⟨h5, h6, hr⟩ | ⟨h5, h6, h7, h8, hr⟩ |
      ⟨h5, h6, h7, hr⟩⟩⟩⟩ <;>
  rw [hr] <;>
  by_cases hnl : noLock K flags <;> by_cases hnm : noMigration K flags <;>
  simp_all [lockCalls, unlockCalls, migrateCalls]

/-- The log of a run is strictly increasing in the order of the phases. -/
theorem run_rank_increasing (K : Constants) (o : Outcomes) (flags : Nat) :
    (run K o flags).2.Pairwise (fun a b => rank a < rank b) := by
  rcases run_cases K o flags with ⟨h1, hr⟩ | ⟨h1, h2, h3, hr⟩ | ⟨h1, h2, ⟨h3, hr⟩ |
    ⟨h3, ⟨h4, h5, hr⟩ | ⟨h4, ⟨h5, hr⟩ | ⟨h5, h6, hr⟩ | ⟨h5, h6, h7, h8, hr⟩ |
      ⟨h5, h6, h7, hr⟩⟩⟩⟩ <;>
  rw [hr] <;>
  by_cases hnl : noLock K flags <;> by_cases hnm : noMigration K flags <;>
  simp [hnl, hnm, lockCalls, unlockCalls, migrateCalls, rank]

set_option maxHeartbeats 1000000 in
/-- Every phase before an invoked one was bypassed, or was invoked and succeeded. -/
theorem run_earlier_succeeded (K : Constants) (o : Outcomes) (flags : Nat) :
    ∀ c ∈ (run K o flags).2, c ≠ Call.unlock → ∀ p, rank p < rank c →
      bypassed K flags p ∨ (p ∈ (run K o flags).2 ∧ o.ok p = true) := by
  rcases run_cases K o flags with ⟨h1, hr⟩ | ⟨h1, h2, h3, hr⟩ | ⟨h1, h2, ⟨h3, hr⟩ |
    ⟨h3, ⟨h4, h5, hr⟩ | ⟨h4, ⟨h5, hr⟩ | ⟨h5, h6, hr⟩ | ⟨h5, h6, h7, h8, hr⟩ |
      ⟨h5, h6, h7, hr⟩⟩⟩⟩ <;>
  rw [hr] <;>
  by_cases hnl : noLock K flags <;> by_cases hnm : noMigration K flags <;>
  simp [hnl, hnm, lockCalls, unlockCalls, migrateCalls, rank] <;>
  (try refine ⟨?_, ?_⟩) <;> (try refine ⟨?_, ?_⟩) <;> (try refine ⟨?_, ?_⟩) <;>
  (try refine ⟨?_, ?_⟩) <;>
  intro p <;> cases p <;>
  simp_all [rank, bypassed, Outcomes.ok, TransitionStatus.toInt]

/-- After an operation that failed, nothing but `unlock` is invoked. -/
theorem run_stops_at_failure (K : Constants) (o : Outcomes) (flags : Nat) :
    (run K o flags).2.Pairwise (fun a b => o.ok a = false → b = Call.unlock) := by
  rcases run_cases K o flags with ⟨h1, hr⟩ | ⟨h1, h2, h3, hr⟩ | ⟨h1, h2, ⟨h3, hr⟩ |
    ⟨h3, ⟨h4, h5, hr⟩ | ⟨h4, ⟨h5, hr⟩ | ⟨h5, h6, hr⟩ | ⟨h5, h6, h7, h8, hr⟩ |
      ⟨h5, h6, h7, hr⟩⟩⟩⟩ <;>
  rw [hr] <;>
  by_cases hnl : noLock K flags <;> by_cases hnm : noMigration K flags <;>
  simp_all [lockCalls, unlockCalls, migrateCalls, Outcomes.ok, TransitionStatus.toInt]

/-! ### Bypassed phases -/

/-- With `NO_LOCK` set, a run is the run without the flag in which `lock` and
`unlock` succeed, with those two invocations removed. -/
theorem run_noLock_refines (K : Constants) (o : Outcomes) (flags flags' : Nat)
    (hset : noLock K flags) (hclear : ¬ noLock K flags')
    (hsame : noMigration K flags' ↔ noMigration K flags)
    (l u : Int) (hl : l ≠ 0) (hu : u ≠ 0) :
    Call.lock ∉ (run K o flags).2 ∧ Call.unlock ∉ (run K o flags).2 ∧
    (run K o flags).2 = (run K (o.withLocking l u) flags').2.filter
      (fun c => decide (c ≠ Call.lock ∧ c ≠ Call.unlock)) ∧
    (run K o flags).1 = (run K (o.withLocking l u) flags').1 := by
  unfold run
  rw [deploy_eq, deploy_eq]
  by_cases hnm : noMigration K flags <;>
  by_cases hd : o.distribute = 0 <;>
  by_cases ha : o.activate_system = TransitionStatus.TRANSITION_OK <;>
  by_cases hm : o.migrate = 0 <;>
  by_cases ht : o.distribution_iterator_has_succeeded = 0 <;>
  by_cases hc : o.pkgmgmt_set_coordinator_profile = 0 <;>
  simp [hset, hclear, hsame, hnm, hd, ha, hm, ht, hc, hl, hu, Outcomes.withLocking,
    lockCalls, unlockCalls, migrateCalls]

/-- With `NO_MIGRATION` set, a run is the run without the flag in which
`migrate` succeeds, with that invocation removed. -/
theorem run_noMigration_refines (K : Constants) (o : Outcomes) (flags flags' : Nat)
    (hset : noMigration K flags) (hclear : ¬ noMigration K flags')
    (hsame : noLock K flags' ↔ noLock K flags)
    (m : Int) (hm : m ≠ 0) :
    Call.migrate ∉ (run K o flags).2 ∧
    (run K o flags).2 = (run K (o.withMigrate m) flags').2.filter
      (fun c => decide (c ≠ Call.migrate)) ∧
    (run K o flags).1 = (run K (o.withMigrate m) flags').1 := by
  unfold run
  rw [deploy_eq, deploy_eq]
  by_cases hnl : noLock K flags <;>
  by_cases hd : o.distribute = 0 <;>
  by_cases hl : o.lock = 0 <;>
  by_cases ha : o.activate_system = TransitionStatus.TRANSITION_OK <;>
  by_cases ht : o.distribution_iterator_has_succeeded = 0 <;>
  by_cases hc : o.pkgmgmt_set_coordinator_profile = 0 <;>
  by_cases hu : o.unlock = 0 <;>
  simp [hset, hclear, hsame, hnl, hd, hl, ha, hm, ht, hc, hu, Outcomes.withMigrate,
    lockCalls, unlockCalls, migrateCalls]

/-! ## The claims -/

/-- C1, as stated, fails: with `distribute` and `lock` successful and the
activate phase returning `TRANSITION_ROLLBACK_FAILED`, `deploy` releases the
locks but returns `DEPLOY_FAIL`, not `DEPLOY_STATE_FAIL`. -/
theorem deploy_rollback_failed_is_not_state_fail :
    rollbackFails.distribute ≠ 0 ∧ rollbackFails.lock ≠ 0 ∧
    rollbackFails.activate_system = TransitionStatus.TRANSITION_ROLLBACK_FAILED ∧
    run sampleConstants rollbackFails 0
      = (DeployStatus.DEPLOY_FAIL,
          [Call.distribute, Call.lock, Call.activate_system, Call.unlock]) ∧
    (run sampleConstants rollbackFails 0).1 ≠ DeployStatus.DEPLOY_STATE_FAIL := by
  decide

/-- C1 (amended): for every run of `deploy` in which `distribute` and `lock`
succeed (or `lock` is bypassed) and the activate phase returns
`TRANSITION_ROLLBACK_FAILED`, `deploy` releases the locks (one `unlock`, last,
unless `NO_LOCK` is set) and returns `DEPLOY_FAIL`; nothing is invoked between
the activation and the release. -/
theorem deploy_rollback_failed (K : Constants) (o : Outcomes) (flags : Nat)
    (hd : o.distribute ≠ 0) (hl : noLock K flags ∨ o.lock ≠ 0)
    (ha : o.activate_system = TransitionStatus.TRANSITION_ROLLBACK_FAILED) :
    (run K o flags).1 = DeployStatus.DEPLOY_FAIL ∧
    (run K o flags).2 =
      if noLock K flags then [Call.distribute, Call.activate_system]
      else [Call.distribute, Call.lock, Call.activate_system, Call.unlock] := by
  unfold run
  rw [deploy_eq]
  by_cases hnl : noLock K flags <;> simp_all [lockCalls, unlockCalls]

/-- Concrete instance: the sample run in which the rollback fails. -/
theorem deploy_rollback_failed_witness :
    (rollbackFails.distribute ≠ 0 ∧
      (noLock sampleConstants 0 ∨ rollbackFails.lock ≠ 0) ∧
      rollbackFails.activate_system = TransitionStatus.TRANSITION_ROLLBACK_FAILED) ∧
    ((run sampleConstants rollbackFails 0).1 = DeployStatus.DEPLOY_FAIL ∧
      (run sampleConstants rollbackFails 0).2 =
        if noLock sampleConstants 0 then [Call.distribute, Call.activate_system]
        else [Call.distribute, Call.lock, Call.activate_system, Call.unlock]) :=
  ⟨by decide, deploy_rollback_failed sampleConstants rollbackFails 0
    (by decide) (by decide) (by decide)⟩

/-- C2: on every exit path of `deploy`, `unlock` has been invoked exactly once
if `lock` was invoked and returned success, and zero times otherwise (`lock`
not invoked, or invoked and failed). -/
theorem deploy_unlock_exactly_once (K : Constants) (o : Outcomes) (flags : Nat) :
    (run K o flags).2.count Call.unlock
      = if Call.lock ∈ (run K o flags).2 ∧ o.lock ≠ 0 then 1 else 0 := by
  rcases run_cases K o flags with ⟨h1, hr⟩ | ⟨h1, h2, h3, hr⟩ | ⟨h1, h2, ⟨h3, hr⟩ |
    ⟨h3, ⟨h4, h5, hr⟩ | ⟨h4, ⟨h5, hr⟩ | ⟨h5, h6, hr⟩ | ⟨h5, h6, h7, h8, hr⟩ |
      ⟨h5, h6, h7, hr⟩⟩⟩⟩ <;>
  rw [hr] <;>
  by_cases hnl : noLock K flags <;> by_cases hnm : noMigration K flags <;>
  simp_all [lockCalls, unlockCalls, migrateCalls]

/-- C3: if `distribute` fails, or `distribute` succeeds and the lock phase
fails, then `deploy` returns `DEPLOY_FAIL` and the activate, migrate,
set-profiles and unlock phases are never invoked; when `distribute` fails
`lock` is not invoked either. -/
theorem deploy_early_failure (K : Constants) (o : Outcomes) (flags : Nat)
    (h : o.distribute = 0 ∨ (o.distribute ≠ 0 ∧ ¬ noLock K flags ∧ o.lock = 0)) :
    (run K o flags).1 = DeployStatus.DEPLOY_FAIL ∧
    (run K o flags).2
      = (if o.distribute = 0 then [Call.distribute] else [Call.distribute, Call.lock]) ∧
    Call.activate_system ∉ (run K o flags).2 ∧
    Call.migrate ∉ (run K o flags).2 ∧
    Call.set_target_profiles ∉ (run K o flags).2 ∧
    Call.pkgmgmt_set_coordinator_profile ∉ (run K o flags).2 ∧
    Call.unlock ∉ (run K o flags).2 ∧
    (if o.distribute = 0 then Call.lock ∉ (run K o flags).2 else True) := by
  unfold run
  rw [deploy_eq]
  rcases h with hd | ⟨hd, hnl, hl⟩
  · simp [hd]
  · simp [hd, hnl, hl]

/-- Concrete instance: the sample run in which `lock` fails. -/
theorem deploy_early_failure_witness :
    (lockFails.distribute = 0 ∨
      (lockFails.distribute ≠ 0 ∧ ¬ noLock sampleConstants 0 ∧ lockFails.lock = 0)) ∧
    ((run sampleConstants lockFails 0).1 = DeployStatus.DEPLOY_FAIL ∧
    (run sampleConstants lockFails 0).2
      = (if lockFails.distribute = 0 then [Call.distribute]
          else [Call.distribute, Call.lock]) ∧
    Call.activate_system ∉ (run sampleConstants lockFails 0).2 ∧
    Call.migrate ∉ (run sampleConstants lockFails 0).2 ∧
    Call.set_target_profiles ∉ (run sampleConstants lockFails 0).2 ∧
    Call.pkgmgmt_set_coordinator_profile ∉ (run sampleConstants lockFails 0).2 ∧
    Call.unlock ∉ (run sampleConstants lockFails 0).2 ∧
    (if lockFails.distribute = 0 then Call.lock ∉ (run sampleConstants lockFails 0).2
      else True)) :=
  ⟨by decide, deploy_early_failure sampleConstants lockFails 0 (by decide)⟩

/-- C4: when `distribute`, `lock` (or its bypass) and activate succeed and
`migrate` is run and fails, `deploy` returns `DEPLOY_STATE_FAIL`, the locks are
released (one `unlock`, last, unless `NO_LOCK` is set) and neither sub-step of
the set-profiles phase is invoked: the coordinator profile is not published. -/
theorem deploy_migrate_failure (K : Constants) (o : Outcomes) (flags : Nat)
    (hd : o.distribute ≠ 0) (hl : noLock K flags ∨ o.lock ≠ 0)
    (ha : o.activate_system = TransitionStatus.TRANSITION_OK)
    (hnm : ¬ noMigration K flags) (hm : o.migrate = 0) :
    (run K o flags).1 = DeployStatus.DEPLOY_STATE_FAIL ∧
    (run K o flags).2 =
      (if noLock K flags then [Call.distribute, Call.activate_system, Call.migrate]
        else [Call.distribute, Call.lock, Call.activate_system, Call.migrate, Call.unlock]) ∧
    Call.set_target_profiles ∉ (run K o flags).2 ∧
    Call.pkgmgmt_set_coordinator_profile ∉ (run K o flags).2 := by
  unfold run
  rw [deploy_eq]
  by_cases hnl : noLock K flags <;> simp_all [lockCalls, unlockCalls]

/-- Concrete instance: the sample run in which `migrate` fails. -/
theorem deploy_migrate_failure_witness :
    (migrateFails.distribute ≠ 0 ∧ (noLock sampleConstants 0 ∨ migrateFails.lock ≠ 0) ∧
      migrateFails.activate_system = TransitionStatus.TRANSITION_OK ∧
      ¬ noMigration sampleConstants 0 ∧ migrateFails.migrate = 0) ∧
    ((run sampleConstants migrateFails 0).1 = DeployStatus.DEPLOY_STATE_FAIL ∧
    (run sampleConstants migrateFails 0).2 =
      (if noLock sampleConstants 0 then
          [Call.distribute, Call.activate_system, Call.migrate]
        else [Call.distribute, Call.lock, Call.activate_system, Call.migrate, Call.unlock]) ∧
    Call.set_target_profiles ∉ (run sampleConstants migrateFails 0).2 ∧
    Call.pkgmgmt_set_coordinator_profile ∉ (run sampleConstants migrateFails 0).2) :=
  ⟨by decide, deploy_migrate_failure sampleConstants migrateFails 0
    (by decide) (by decide) (by decide) (by decide) (by decide)⟩

/-- C5: when `distribute` and `lock` succeed (or `lock` is bypassed) and the
activate phase returns `TRANSITION_FAILED`, `deploy` releases the locks (one
`unlock`, last, unless `NO_LOCK` is set) and returns `DEPLOY_FAIL`; `migrate`
and both sub-steps of the set-profiles phase are never invoked. -/
theorem deploy_activation_failure (K : Constants) (o : Outcomes) (flags : Nat)
    (hd : o.distribute ≠ 0) (hl : noLock K flags ∨ o.lock ≠ 0)
    (ha : o.activate_system = TransitionStatus.TRANSITION_FAILED) :
    (run K o flags).1 = DeployStatus.DEPLOY_FAIL ∧
    (run K o flags).2 =
      (if noLock K flags then [Call.distribute, Call.activate_system]
        else [Call.distribute, Call.lock, Call.activate_system, Call.unlock]) ∧
    Call.migrate ∉ (run K o flags).2 ∧
    Call.set_target_profiles ∉ (run K o flags).2 ∧
    Call.pkgmgmt_set_coordinator_profile ∉ (run K o flags).2 := by
  unfold run
  rw [deploy_eq]
  by_cases hnl : noLock K flags <;> simp_all [lockCalls, unlockCalls]

/-- Concrete instance: the sample run in which the
activation fails and is rolled back. -/
theorem deploy_activation_failure_witness :
    (activationFails.distribute ≠ 0 ∧
      (noLock sampleConstants 0 ∨ activationFails.lock ≠ 0) ∧
      activationFails.activate_system = TransitionStatus.TRANSITION_FAILED) ∧
    ((run sampleConstants activationFails 0).1 = DeployStatus.DEPLOY_FAIL ∧
    (run sampleConstants activationFails 0).2 =
      (if noLock sampleConstants 0 then [Call.distribute, Call.activate_system]
        else [Call.distribute, Call.lock, Call.activate_system, Call.unlock]) ∧
    Call.migrate ∉ (run sampleConstants activationFails 0).2 ∧
    Call.set_target_profiles ∉ (run sampleConstants activationFails 0).2 ∧
    Call.pkgmgmt_set_coordinator_profile ∉ (run sampleConstants activationFails 0).2) :=
  ⟨by decide, deploy_activation_failure sampleConstants activationFails 0
    (by decide) (by decide) (by decide)⟩

/-- C6: when `distribute`, `lock`, activate and `migrate` succeed (or are
bypassed by their flag) and the set-profiles phase fails, `deploy` returns
`DEPLOY_FAIL` whatever `unlock` returns, and the locks are released: unless
`NO_LOCK` is set, `unlock` is invoked exactly once, as the last operation. -/
theorem deploy_profiles_failure (K : Constants) (o : Outcomes) (flags : Nat) (tr : Trace)
    (hd : o.distribute ≠ 0) (hl : noLock K flags ∨ o.lock ≠ 0)
    (ha : o.activate_system = TransitionStatus.TRANSITION_OK)
    (hm : noMigration K flags ∨ o.migrate ≠ 0)
    (hp : (set_all_profiles K o tr).1 = 0) :
    (run K o flags).1 = DeployStatus.DEPLOY_FAIL ∧
    (run K o flags).2.count Call.unlock = (if noLock K flags then 0 else 1) ∧
    (run K o flags).2.getLast? =
      some (if noLock K flags then
          (if o.distribution_iterator_has_succeeded = 0 then Call.set_target_profiles
            else Call.pkgmgmt_set_coordinator_profile)
        else Call.unlock) := by
  rw [set_all_profiles_fails_iff] at hp
  unfold run
  rw [deploy_eq]
  by_cases hnl : noLock K flags <;> by_cases hnm : noMigration K flags <;>
    by_cases ht : o.distribution_iterator_has_succeeded = 0 <;>
    simp_all [lockCalls, unlockCalls, migrateCalls]

/-- Concrete instance: the sample run in which publishing
the coordinator profile fails and `unlock` fails as well. -/
theorem deploy_profiles_failure_witness :
    (coordinatorProfileFails.distribute ≠ 0 ∧
      (noLock sampleConstants 0 ∨ coordinatorProfileFails.lock ≠ 0) ∧
      coordinatorProfileFails.activate_system = TransitionStatus.TRANSITION_OK ∧
      (noMigration sampleConstants 0 ∨ coordinatorProfileFails.migrate ≠ 0) ∧
      (set_all_profiles sampleConstants coordinatorProfileFails []).1 = 0) ∧
    ((run sampleConstants coordinatorProfileFails 0).1 = DeployStatus.DEPLOY_FAIL ∧
    (run sampleConstants coordinatorProfileFails 0).2.count Call.unlock
      = (if noLock sampleConstants 0 then 0 else 1) ∧
    (run sampleConstants coordinatorProfileFails 0).2.getLast? =
      some (if noLock sampleConstants 0 then
          (if coordinatorProfileFails.distribution_iterator_has_succeeded = 0 then
            Call.set_target_profiles
            else Call.pkgmgmt_set_coordinator_profile)
        else Call.unlock)) :=
  ⟨by decide, deploy_profiles_failure sampleConstants coordinatorProfileFails 0 []
    (by decide) (by decide) (by decide) (by decide) (by decide)⟩

/-- C7: `deploy` returns `DEPLOY_OK` if and only if each of distribute, lock,
activate, migrate, set-profiles and unlock succeeded, a step bypassed by
`NO_LOCK` or `NO_MIGRATION` counting as succeeded; and when all earlier steps
succeed and only `unlock` fails, the result is `DEPLOY_FAIL`. -/
theorem deploy_ok_iff (K : Constants) (o : Outcomes) (flags : Nat) (tr : Trace) :
    ((run K o flags).1 = DeployStatus.DEPLOY_OK ↔
      o.distribute ≠ 0 ∧ (noLock K flags ∨ o.lock ≠ 0) ∧
      o.activate_system = TransitionStatus.TRANSITION_OK ∧
      (noMigration K flags ∨ o.migrate ≠ 0) ∧
      (set_all_profiles K o tr).1 ≠ 0 ∧
      (noLock K flags ∨ o.unlock ≠ 0)) ∧
    ((o.distribute ≠ 0 ∧ (noLock K flags ∨ o.lock ≠ 0) ∧
      o.activate_system = TransitionStatus.TRANSITION_OK ∧
      (noMigration K flags ∨ o.migrate ≠ 0) ∧
      (set_all_profiles K o tr).1 ≠ 0 ∧
      (¬ noLock K flags ∧ o.unlock = 0)) →
      (run K o flags).1 = DeployStatus.DEPLOY_FAIL) := by
  have hp := set_all_profiles_fails_iff K o tr
  rcases run_cases K o flags with ⟨h1, hr⟩ | ⟨h1, h2, h3, hr⟩ | ⟨h1, h2, ⟨h3, hr⟩ |
    ⟨h3, ⟨h4, h5, hr⟩ | ⟨h4, ⟨h5, hr⟩ | ⟨h5, h6, hr⟩ | ⟨h5, h6, h7, h8, hr⟩ |
      ⟨h5, h6, h7, hr⟩⟩⟩⟩ <;>
  rw [hr] <;> simp only [hp] <;>
  by_cases hnl : noLock K flags <;> by_cases hnm : noMigration K flags <;>
  simp_all

/-- C8: the operations `deploy` invokes are an initial segment of the pipeline
distribute, lock, activate, migrate, set-profiles (target profiles, then the
coordinator profile; bypassed phases left out), followed by `unlock` alone
exactly when the locks were acquired.  No operation is invoked twice, the log is
increasing in the phase order, an operation other than `unlock` is invoked only
when every earlier phase was bypassed or was invoked and returned success, and
after an operation that failed nothing but `unlock` is invoked. -/
theorem deploy_phase_order (K : Constants) (o : Outcomes) (flags : Nat) :
    ((run K o flags).2.filter (fun c => decide (c ≠ Call.unlock))) <+: pipeline K flags ∧
    (run K o flags).2 = (run K o flags).2.filter (fun c => decide (c ≠ Call.unlock))
      ++ (if Call.lock ∈ (run K o flags).2 ∧ o.lock ≠ 0 then [Call.unlock] else []) ∧
    (run K o flags).2.Nodup ∧
    (run K o flags).2.Pairwise (fun a b => rank a < rank b) ∧
    (∀ c ∈ (run K o flags).2, c ≠ Call.unlock → ∀ p, rank p < rank c →
      bypassed K flags p ∨ (p ∈ (run K o flags).2 ∧ o.ok p = true)) ∧
    (run K o flags).2.Pairwise (fun a b => o.ok a = false → b = Call.unlock) :=
  ⟨run_initial_segment K o flags, run_unlock_last K o flags,
    (run_rank_increasing K o flags).imp (fun h => by intro e; rw [e] at h; exact lt_irrefl _ h),
    run_rank_increasing K o flags, run_earlier_succeeded K o flags,
    run_stops_at_failure K o flags⟩

/-- C9: a phase bypassed by its flag is never dispatched and the rest of the
pipeline is unchanged.  With `NO_LOCK` set, `deploy` invokes neither `lock` nor
`unlock`; with `NO_MIGRATION` set it never invokes `migrate`; and in each case
the invocations of the other operations and the returned status are those of
the run without that flag (the other bypass flag unchanged) in which the
bypassed operations succeed. -/
theorem deploy_bypass_refines (K : Constants) (o : Outcomes) (flags flags' : Nat) :
    (noLock K flags → ¬ noLock K flags' → (noMigration K flags' ↔ noMigration K flags) →
      ∀ l u : Int, l ≠ 0 → u ≠ 0 →
        Call.lock ∉ (run K o flags).2 ∧ Call.unlock ∉ (run K o flags).2 ∧
        (run K o flags).2 = (run K (o.withLocking l u) flags').2.filter
          (fun c => decide (c ≠ Call.lock ∧ c ≠ Call.unlock)) ∧
        (run K o flags).1 = (run K (o.withLocking l u) flags').1) ∧
    (noMigration K flags → ¬ noMigration K flags' → (noLock K flags' ↔ noLock K flags) →
      ∀ m : Int, m ≠ 0 →
        Call.migrate ∉ (run K o flags).2 ∧
        (run K o flags).2 = (run K (o.withMigrate m) flags').2.filter
          (fun c => decide (c ≠ Call.migrate)) ∧
        (run K o flags).1 = (run K (o.withMigrate m) flags').1) :=
  ⟨fun h1 h2 h3 l u hl hu => run_noLock_refines K o flags flags' h1 h2 h3 l u hl hu,
    fun h1 h2 h3 m hm => run_noMigration_refines K o flags flags' h1 h2 h3 m hm⟩

/-- Concrete instance: outcomes in which `lock`, `migrate` and `unlock` would
fail, run with `NO_LOCK` (mask 8) against the run without flags in which `lock`
and `unlock` succeed, and run with `NO_MIGRATION` (mask 4) against the run
without flags in which `migrate` succeeds. -/
theorem deploy_bypass_refines_witness :
    (noLock sampleConstants 8 ∧ ¬ noLock sampleConstants 0 ∧
      noMigration sampleConstants 4 ∧ ¬ noMigration sampleConstants 0) ∧
    (Call.lock ∉ (run sampleConstants bypassableFail 8).2 ∧
      Call.unlock ∉ (run sampleConstants bypassableFail 8).2 ∧
      (run sampleConstants bypassableFail 8).2
        = (run sampleConstants (bypassableFail.withLocking 1 1) 0).2.filter
            (fun c => decide (c ≠ Call.lock ∧ c ≠ Call.unlock)) ∧
      (run sampleConstants bypassableFail 8).1
        = (run sampleConstants (bypassableFail.withLocking 1 1) 0).1) ∧
    (Call.migrate ∉ (run sampleConstants bypassableFail 4).2 ∧
      (run sampleConstants bypassableFail 4).2
        = (run sampleConstants (bypassableFail.withMigrate 1) 0).2.filter
            (fun c => decide (c ≠ Call.migrate)) ∧
      (run sampleConstants bypassableFail 4).1
        = (run sampleConstants (bypassableFail.withMigrate 1) 0).1) :=
  ⟨by decide,
    (deploy_bypass_refines sampleConstants bypassableFail 8 0).1
      (by decide) (by decide) (by decide) 1 1 (by decide) (by decide),
    (deploy_bypass_refines sampleConstants bypassableFail 4 0).2
      (by decide) (by decide) (by decide) 1 (by decide)⟩

/-! ### `set_profiles` -/

/-- C10: `set_profiles` first sets the target profiles if and only if
`SET_NO_TARGET_PROFILES` is unset, then publishes the coordinator profile if and
only if `SET_NO_COORDINATOR_PROFILE` is unset and the target sub-step was
skipped or succeeded; it returns success if and only if every sub-step not
disabled by its flag succeeded; and the coordinator profile is never published
after a failed target-profile step. -/
theorem set_profiles_spec (K : Constants) (o : Outcomes) (flags : Nat) (tr : Trace) :
    (set_profiles K o flags tr).2 = tr
      ++ (if noTargetProfiles K flags then [] else [Call.set_target_profiles])
      ++ (if ¬ noCoordinatorProfile K flags ∧
            (noTargetProfiles K flags ∨ o.distribution_iterator_has_succeeded ≠ 0)
          then [Call.pkgmgmt_set_coordinator_profile] else []) ∧
    (Call.set_target_profiles ∈ (set_profiles K o flags []).2 ↔
      ¬ noTargetProfiles K flags) ∧
    (Call.pkgmgmt_set_coordinator_profile ∈ (set_profiles K o flags []).2 ↔
      ¬ noCoordinatorProfile K flags ∧
        (noTargetProfiles K flags ∨ o.distribution_iterator_has_succeeded ≠ 0)) ∧
    ((set_profiles K o flags tr).1 ≠ 0 ↔
      (noTargetProfiles K flags ∨ o.distribution_iterator_has_succeeded ≠ 0) ∧
      (noCoordinatorProfile K flags ∨ o.pkgmgmt_set_coordinator_profile ≠ 0)) ∧
    ¬ (¬ noTargetProfiles K flags ∧ o.distribution_iterator_has_succeeded = 0 ∧
        Call.pkgmgmt_set_coordinator_profile ∈ (set_profiles K o flags []).2) := by
  unfold set_profiles set_target_profiles pkgmgmt_set_coordinator_profile
    noTargetProfiles noCoordinatorProfile
  by_cases hnt : flags &&& K.SET_NO_TARGET_PROFILES = 0 <;>
  by_cases hnc : flags &&& K.SET_NO_COORDINATOR_PROFILE = 0 <;>
  by_cases ht : o.distribution_iterator_has_succeeded = 0 <;>
  by_cases hc : o.pkgmgmt_set_coordinator_profile = 0 <;>
  simp [hnt, hnc, ht, hc]

end Disnix
